import Mathlib

/-!
# Legal-Document Requirement Evaluator — shallow embedding

A shallow embedding of the tax-form / legal-document eligibility component of
the opencollective API: the batched data-loader deciding whether a tax form
must be collected before an expense is paid, together with the feature-status
resolver. Entities (Host, Collective, Expense, LegalDocument,
RequiredLegalDocument) are modelled as records in an explicit in-memory
database; the evaluator is a pure read-side decision function over it.
-/

namespace OC

/-- Expense types relevant to the legal-document rules. -/
inductive ExpenseType
  | INVOICE
  | RECEIPT
  | UNCLASSIFIED
  | FUNDING_REQUEST
deriving DecidableEq, Repr

/-- Legal document types named by RequiredLegalDocument configuration rows. -/
inductive DocumentType
  | US_TAX_FORM
deriving DecidableEq, Repr

/-- Request status of a filed LegalDocument. -/
inductive RequestStatus
  | NOT_REQUESTED
  | REQUESTED
  | RECEIVED
  | ERROR
deriving DecidableEq, Repr

/-- A Collective: a fiscal entity belonging to exactly one Host via its
host reference. -/
structure Collective where
  id : Nat
  HostCollectiveId : Nat
deriving DecidableEq, Repr

/-- An Expense: a payment request with an integer amount in cents, a type, a
submitting party (FromCollective), a target collective and an incurred-at
fiscal year (the calendar year of its incurred-at date). -/
structure Expense where
  id : Nat
  amount : Nat
  etype : ExpenseType
  FromCollectiveId : Nat
  CollectiveId : Nat
  incurredYear : Nat
deriving DecidableEq, Repr

/-- A LegalDocument: a record that a submitting party filed a document of a
given type for a given fiscal year, with a request status. -/
structure LegalDocument where
  year : Nat
  documentType : DocumentType
  requestStatus : RequestStatus
  CollectiveId : Nat
deriving DecidableEq, Repr

/-- A RequiredLegalDocument configuration row: a Host mandates a document
type for payees of collectives under that host. -/
structure RequiredLegalDocument where
  HostCollectiveId : Nat
  documentType : DocumentType
deriving DecidableEq, Repr

/-- The read-side database the evaluator queries. -/
structure DB where
  collectives : List Collective
  expenses : List Expense
  requiredDocuments : List RequiredLegalDocument
  legalDocuments : List LegalDocument
deriving Repr

/-- Error taxonomy of the evaluator: a referenced Expense or Collective that
does not exist resolves to NotFound for that key alone. -/
inductive EvalError
  | NotFound
deriving DecidableEq, Repr

/-- Fetch an Expense by identifier. -/
def findExpense (db : DB) (expenseId : Nat) : Option Expense :=
  db.expenses.find? (fun e => e.id == expenseId)

/-- Fetch a Collective by identifier. -/
def findCollective (db : DB) (collectiveId : Nat) : Option Collective :=
  db.collectives.find? (fun c => c.id == collectiveId)

/-- Modelled from the spec: the RequiredLegalDocument configuration rows of a
Host, as the list of document types the Host mandates. -/
def hostRequiredDocTypes (db : DB) (hostId : Nat) : List DocumentType :=
  (db.requiredDocuments.filter (fun r => r.HostCollectiveId == hostId)).map
    (fun r => r.documentType)

/-- Whether a collective belongs to the given Host via its host reference. -/
def isUnderHost (db : DB) (collectiveId hostId : Nat) : Bool :=
  match findCollective db collectiveId with
  | some c => c.HostCollectiveId == hostId
  | none => false

/-- Only expense types subject to legal-document rules count toward the
threshold; RECEIPT-type expenses are excluded entirely. -/
def countsTowardThreshold (t : ExpenseType) : Bool :=
  t != ExpenseType.RECEIPT

/-- The documented external threshold: 600.00 expressed in cents. -/
def US_TAX_FORM_THRESHOLD : Nat := 60000

/-- Modelled from the spec: the filter of the aggregate query — non-RECEIPT
expenses submitted by the same submitting party to any collective under the
same Host, within the same fiscal year. -/
def matchesAggregate (db : DB) (hostId fromId year : Nat) (x : Expense) : Bool :=
  countsTowardThreshold x.etype &&
  x.FromCollectiveId == fromId &&
  x.incurredYear == year &&
  isUnderHost db x.CollectiveId hostId

/-- Modelled from the spec: the aggregate total (sum of amount, in cents) of
all non-RECEIPT expenses submitted by the given submitting party to any
collective under the given Host, within the given fiscal year. -/
def aggregateTotal (db : DB) (hostId fromId year : Nat) : Nat :=
  ((db.expenses.filter (matchesAggregate db hostId fromId year)).map
    (fun x => x.amount)).sum

/-- Modelled from the spec: whether a LegalDocument of the given type exists
for the submitting party, for that fiscal year, with RECEIVED status. -/
def hasReceivedLegalDocument (db : DB) (fromId year : Nat) (dt : DocumentType) : Bool :=
  db.legalDocuments.any (fun d =>
    d.CollectiveId == fromId && d.year == year &&
    d.documentType == dt && d.requestStatus == RequestStatus.RECEIVED)

/-- Modelled from the spec: whether a mandated document type is still
outstanding for an expense, given the already-computed aggregate total of its
(Host, submitter, fiscal year) group: the expense is in scope (non-RECEIPT),
the aggregate reaches the threshold, and no RECEIVED document of that type
exists for the submitter and fiscal year. -/
def documentOutstandingAgg (db : DB) (e : Expense) (agg : Nat) (dt : DocumentType) : Bool :=
  countsTowardThreshold e.etype &&
  decide (US_TAX_FORM_THRESHOLD ≤ agg) &&
  !hasReceivedLegalDocument db e.FromCollectiveId e.incurredYear dt

/-- Whether a mandated document type is still outstanding for an expense,
with the aggregate computed directly. -/
def documentOutstanding (db : DB) (e : Expense) (hostId : Nat) (dt : DocumentType) : Bool :=
  documentOutstandingAgg db e
    (aggregateTotal db hostId e.FromCollectiveId e.incurredYear) dt

/-- Modelled from the spec: Operation B, `requiredLegalDocumentTypes` — the
set of document types still outstanding for the expense (empty if none
required or all satisfied); NotFound when the expense or its collective does
not exist. This is the per-identifier (load-alone) semantics of the
`requiredLegalDocuments` loader. -/
def requiredLegalDocumentTypes (db : DB) (expenseId : Nat) :
    Except EvalError (List DocumentType) :=
  match findExpense db expenseId with
  | none => Except.error EvalError.NotFound
  | some e =>
    match findCollective db e.CollectiveId with
    | none => Except.error EvalError.NotFound
    | some c =>
      Except.ok ((hostRequiredDocTypes db c.HostCollectiveId).filter
        (documentOutstanding db e c.HostCollectiveId))

/-- Modelled from the spec: Operation A,
`isLegalDocumentRequiredBeforePayment` (`userTaxFormRequiredBeforePayment`),
following the spec's steps 1-6: resolve the Host and fiscal year; `false`
when the Host has no RequiredLegalDocument configuration, when the expense is
a RECEIPT, or when the fiscal-year aggregate is below the threshold;
otherwise `true` unless a RECEIVED LegalDocument of the required type exists
for the submitter and fiscal year. -/
def isLegalDocumentRequiredBeforePayment (db : DB) (expenseId : Nat) :
    Except EvalError Bool :=
  match findExpense db expenseId with
  | none => Except.error EvalError.NotFound
  | some e =>
    match findCollective db e.CollectiveId with
    | none => Except.error EvalError.NotFound
    | some c =>
      let hostId := c.HostCollectiveId
      let requiredTypes := hostRequiredDocTypes db hostId
      if requiredTypes.isEmpty then Except.ok false
      else if e.etype == ExpenseType.RECEIPT then Except.ok false
      else if aggregateTotal db hostId e.FromCollectiveId e.incurredYear <
          US_TAX_FORM_THRESHOLD then Except.ok false
      else Except.ok (requiredTypes.any (fun dt =>
        !hasReceivedLegalDocument db e.FromCollectiveId e.incurredYear dt))

/-- The fan-out key of the batching contract: (Host, submitting party,
fiscal year). -/
structure GroupKey where
  hostId : Nat
  fromId : Nat
  year : Nat
deriving DecidableEq, Repr

/-- The fan-out key of an expense identifier, when it resolves. -/
def expenseGroupKey (db : DB) (expenseId : Nat) : Option GroupKey :=
  match findExpense db expenseId with
  | none => none
  | some e =>
    match findCollective db e.CollectiveId with
    | none => none
    | some c => some ⟨c.HostCollectiveId, e.FromCollectiveId, e.incurredYear⟩

/-- Modelled from the spec: the distinct (Host, submitter, fiscal year)
groups of a batch of expense identifiers. -/
def batchKeys (db : DB) (ids : List Nat) : List GroupKey :=
  (ids.filterMap (expenseGroupKey db)).dedup

/-- Modelled from the spec: one aggregate query per distinct group of the
batch, as a table from group key to aggregate total. -/
def aggregateTable (db : DB) (ids : List Nat) : List (GroupKey × Nat) :=
  (batchKeys db ids).map
    (fun k => (k, aggregateTotal db k.hostId k.fromId k.year))

/-- Modelled from the spec: resolve one expense identifier of a batch from the
table of per-group aggregates, fanning the group's single aggregate back to
the identifier. -/
def loadOneWith (db : DB) (table : List (GroupKey × Nat)) (expenseId : Nat) :
    Except EvalError (List DocumentType) :=
  match findExpense db expenseId with
  | none => Except.error EvalError.NotFound
  | some e =>
    match findCollective db e.CollectiveId with
    | none => Except.error EvalError.NotFound
    | some c =>
      let k : GroupKey := ⟨c.HostCollectiveId, e.FromCollectiveId, e.incurredYear⟩
      let agg := ((table.find? (fun p => p.1 == k)).map Prod.snd).getD 0
      Except.ok ((hostRequiredDocTypes db c.HostCollectiveId).filter
        (documentOutstandingAgg db e agg))

/-- Modelled from the spec: `loadMany` of the `requiredLegalDocuments`
loader — group the batch by (Host, submitter, fiscal year), issue one
aggregate query per distinct group, then fan results back out to each
original identifier. -/
def loadMany (db : DB) (ids : List Nat) :
    List (Except EvalError (List DocumentType)) :=
  ids.map (loadOneWith db (aggregateTable db ids))

/-! ## Feature-status resolver (src/cron part 2: getFeatureStatusResolver) -/

/-- The FEATURE_STATUS enum of the feature-status resolver. -/
inductive FeatureStatus
  | ACTIVE
  | AVAILABLE
  | DISABLED
  | UNSUPPORTED
deriving DecidableEq, Repr

/-- The FEATURE enum: the four features the resolver dispatches on for usage
checks, plus representative features handled by its default branch (the
constants module itself is external to the excerpt). -/
inductive Feature
  | UPDATES
  | CONVERSATIONS
  | RECURRING_CONTRIBUTIONS
  | TRANSFERWISE
  | RECEIVE_FINANCIAL_CONTRIBUTIONS
  | CONTACT_FORM
deriving DecidableEq, Repr

/-- Collective types, as passed to isFeatureAllowedForCollectiveType. -/
inductive CollectiveType
  | COLLECTIVE
  | ORGANIZATION
  | USER
  | EVENT
  | FUND
  | PROJECT
deriving DecidableEq, Repr

/-- The collective argument of the feature-status resolver. -/
structure FCollective where
  id : Nat
  ctype : CollectiveType
  isHostAccount : Bool
deriving DecidableEq, Repr

/-- The usage counts the resolver's special cases query (each source query
uses `limit: 1`, so only zero vs non-zero matters): published Updates and
non-deleted Conversations by CollectiveId, ACTIVE Orders with a Subscription
by FromCollectiveId, and transferwise ConnectedAccounts by CollectiveId. -/
structure FeatureDB where
  publishedUpdatesCount : Nat → Nat
  conversationsCount : Nat → Nat
  activeRecurringContributionsCount : Nat → Nat
  transferwiseAccountsCount : Nat → Nat

/-- `checkIsActive`: a non-zero (truthy) count resolves to ACTIVE, a zero
count to the fallback status. -/
def checkIsActive (result : Nat) (fallback : FeatureStatus) : FeatureStatus :=
  if result != 0 then FeatureStatus.ACTIVE else fallback

/-- `getFeatureStatusResolver`: UNSUPPORTED for a null collective or a
collective type the feature is not allowed for, DISABLED when the collective
does not have the feature, then a usage check for UPDATES, CONVERSATIONS,
RECURRING_CONTRIBUTIONS (fallback AVAILABLE) and TRANSFERWISE (fallback
DISABLED), and ACTIVE for every other feature. The external
`isFeatureAllowedForCollectiveType` and `hasFeature` predicates are passed in
as parameters. -/
def getFeatureStatusResolver
    (allowed : CollectiveType → Feature → Bool → Bool)
    (hasFeature : FCollective → Feature → Bool)
    (fdb : FeatureDB) (feature : Feature) (collective : Option FCollective) :
    FeatureStatus :=
  match collective with
  | none => FeatureStatus.UNSUPPORTED
  | some c =>
    if !allowed c.ctype feature c.isHostAccount then FeatureStatus.UNSUPPORTED
    else if !hasFeature c feature then FeatureStatus.DISABLED
    else
      match feature with
      | Feature.UPDATES =>
          checkIsActive (fdb.publishedUpdatesCount c.id) FeatureStatus.AVAILABLE
      | Feature.CONVERSATIONS =>
          checkIsActive (fdb.conversationsCount c.id) FeatureStatus.AVAILABLE
      | Feature.RECURRING_CONTRIBUTIONS =>
          checkIsActive (fdb.activeRecurringContributionsCount c.id)
            FeatureStatus.AVAILABLE
      | Feature.TRANSFERWISE =>
          checkIsActive (fdb.transferwiseAccountsCount c.id)
            FeatureStatus.DISABLED
      | _ => FeatureStatus.ACTIVE

/-! ## Helper lemmas -/

theorem eq_usTaxForm (dt : DocumentType) : dt = DocumentType.US_TAX_FORM := by
  cases dt
  rfl

theorem find?_aggTable (f : GroupKey → Nat) (keys : List GroupKey) (k : GroupKey)
    (h : k ∈ keys) :
    (keys.map (fun g => (g, f g))).find? (fun p => p.1 == k) = some (k, f k) := by
  induction keys with
  | nil => cases h
  | cons g gs ih =>
    rcases List.mem_cons.mp h with rfl | hmem
    · simp [List.find?]
    · by_cases hg : g = k
      · subst hg; simp [List.find?]
      · simpa [List.find?, beq_false_of_ne hg] using ih hmem

theorem loadOneWith_aggregateTable (db : DB) (ids : List Nat) (expenseId : Nat)
    (hid : expenseId ∈ ids) :
    loadOneWith db (aggregateTable db ids) expenseId =
      requiredLegalDocumentTypes db expenseId := by
  simp only [loadOneWith, requiredLegalDocumentTypes]
  cases he : findExpense db expenseId with
  | none => rfl
  | some e =>
    dsimp only
    cases hc : findCollective db e.CollectiveId with
    | none => rfl
    | some c =>
      have hkey : expenseGroupKey db expenseId =
          some ⟨c.HostCollectiveId, e.FromCollectiveId, e.incurredYear⟩ := by
        simp only [expenseGroupKey, he, hc]
      have hmem : (⟨c.HostCollectiveId, e.FromCollectiveId, e.incurredYear⟩ : GroupKey)
          ∈ batchKeys db ids := by
        unfold batchKeys
        exact List.mem_dedup.mpr (List.mem_filterMap.mpr ⟨expenseId, hid, hkey⟩)
      have hfind : (aggregateTable db ids).find?
          (fun p => p.1 == (⟨c.HostCollectiveId, e.FromCollectiveId,
            e.incurredYear⟩ : GroupKey)) =
          some (⟨c.HostCollectiveId, e.FromCollectiveId, e.incurredYear⟩,
            aggregateTotal db c.HostCollectiveId e.FromCollectiveId
              e.incurredYear) := by
        have h := find?_aggTable
          (fun g => aggregateTotal db g.hostId g.fromId g.year)
          (batchKeys db ids)
          ⟨c.HostCollectiveId, e.FromCollectiveId, e.incurredYear⟩ hmem
        simpa [aggregateTable] using h
      simp only [hfind, Option.map_some', Option.getD_some]
      rfl

theorem loadMany_eq_map (db : DB) (ids : List Nat) :
    loadMany db ids = ids.map (requiredLegalDocumentTypes db) := by
  unfold loadMany
  exact List.map_congr_left (fun i hi => loadOneWith_aggregateTable db ids i hi)

theorem requiredTypes_ok (db : DB) (expenseId : Nat) (e : Expense) (c : Collective)
    (he : findExpense db expenseId = some e)
    (hc : findCollective db e.CollectiveId = some c) :
    requiredLegalDocumentTypes db expenseId =
      Except.ok ((hostRequiredDocTypes db c.HostCollectiveId).filter
        (documentOutstanding db e c.HostCollectiveId)) := by
  simp only [requiredLegalDocumentTypes, he, hc]

theorem isRequired_ok (db : DB) (expenseId : Nat) (e : Expense) (c : Collective)
    (he : findExpense db expenseId = some e)
    (hc : findCollective db e.CollectiveId = some c) :
    isLegalDocumentRequiredBeforePayment db expenseId =
      Except.ok
        (if (hostRequiredDocTypes db c.HostCollectiveId).isEmpty then false
         else if e.etype == ExpenseType.RECEIPT then false
         else if aggregateTotal db c.HostCollectiveId e.FromCollectiveId
             e.incurredYear < US_TAX_FORM_THRESHOLD then false
         else (hostRequiredDocTypes db c.HostCollectiveId).any fun dt =>
           !hasReceivedLegalDocument db e.FromCollectiveId e.incurredYear dt) := by
  simp only [isLegalDocumentRequiredBeforePayment, he, hc]
  split_ifs <;> rfl

theorem decision_true_iff (db : DB) (e : Expense) (hostId : Nat) :
    ((if (hostRequiredDocTypes db hostId).isEmpty then false
      else if e.etype == ExpenseType.RECEIPT then false
      else if aggregateTotal db hostId e.FromCollectiveId e.incurredYear <
          US_TAX_FORM_THRESHOLD then false
      else (hostRequiredDocTypes db hostId).any fun dt =>
        !hasReceivedLegalDocument db e.FromCollectiveId e.incurredYear dt) = true)
    ↔ (hostRequiredDocTypes db hostId).filter (documentOutstanding db e hostId)
        ≠ [] := by
  by_cases h1 : (hostRequiredDocTypes db hostId).isEmpty
  · have h1' := List.isEmpty_iff.mp h1
    simp [h1, h1']
  · by_cases h2 : e.etype == ExpenseType.RECEIPT
    · have hdo : ∀ dt, documentOutstanding db e hostId dt = false := fun dt => by
        simp only [documentOutstanding, documentOutstandingAgg, countsTowardThreshold]
        simp only [beq_iff_eq] at h2
        simp [h2]
      have hf : (hostRequiredDocTypes db hostId).filter
          (documentOutstanding db e hostId) = [] :=
        List.filter_eq_nil_iff.mpr (fun a _ => by simp [hdo])
      simp [h1, h2, hf]
    · by_cases h3 : aggregateTotal db hostId e.FromCollectiveId e.incurredYear <
          US_TAX_FORM_THRESHOLD
      · have hdo : ∀ dt, documentOutstanding db e hostId dt = false := fun dt => by
          simp only [documentOutstanding, documentOutstandingAgg]
          simp [Nat.not_le.mpr h3]
        have hf : (hostRequiredDocTypes db hostId).filter
            (documentOutstanding db e hostId) = [] :=
          List.filter_eq_nil_iff.mpr (fun a _ => by simp [hdo])
        simp [h1, h2, h3, hf]
      · have h2' : countsTowardThreshold e.etype = true := by
          simp only [countsTowardThreshold, bne_iff_ne, ne_eq]
          simpa using h2
        have h3' : decide (US_TAX_FORM_THRESHOLD ≤
            aggregateTotal db hostId e.FromCollectiveId e.incurredYear) = true := by
          simp [Nat.not_lt.mp h3]
        have hdo : ∀ dt, documentOutstanding db e hostId dt =
            !hasReceivedLegalDocument db e.FromCollectiveId e.incurredYear dt :=
          fun dt => by
            simp only [documentOutstanding, documentOutstandingAgg, h2', h3']
            simp
        rw [List.filter_congr (fun dt _ => hdo dt)]
        simp [h1, h2, h3, List.any_eq_true, List.filter_eq_nil_iff]

/-! ## Concrete databases for claims -/

/-- Host 100 requires US_TAX_FORM; collective 10 is under host 100; host 200
has no configuration and collective 20 is under it. Expenses 1, 2 are by
submitter 50 under host 100 (59000 + 2000 ≥ 60000, neither alone above);
expense 3 is by submitter 60 under the unconfigured host 200. -/
def dbBatch : DB :=
  { collectives := [⟨10, 100⟩, ⟨20, 200⟩]
  , expenses :=
      [ ⟨1, 59000, ExpenseType.INVOICE, 50, 10, 2024⟩
      , ⟨2, 2000, ExpenseType.INVOICE, 50, 10, 2024⟩
      , ⟨3, 70000, ExpenseType.INVOICE, 60, 20, 2024⟩ ]
  , requiredDocuments := [⟨100, DocumentType.US_TAX_FORM⟩]
  , legalDocuments := [] }

/-! ## Claims -/

/-- C1: batch isolation — every identifier of a batch resolved by `loadMany`
gets exactly the result it would get if loaded alone; in particular in the
concrete scenario where only expenses 1 and 2 share submitter, host and
fiscal year and together exceed the threshold, while expense 3 belongs to a
different Host with no RequiredLegalDocument configuration,
`loadMany [1, 2, 3]` returns `[[US_TAX_FORM], [US_TAX_FORM], []]` and
expense 3's result is not contaminated by the aggregate of 1 and 2. -/
theorem loadMany_batch_isolation :
    (∀ (db : DB) (ids : List Nat),
      loadMany db ids = ids.map (requiredLegalDocumentTypes db)) ∧
    loadMany dbBatch [1, 2, 3] =
      [ Except.ok [DocumentType.US_TAX_FORM]
      , Except.ok [DocumentType.US_TAX_FORM]
      , Except.ok [] ] :=
  ⟨loadMany_eq_map, rfl⟩

/-- C2: agreement of the two operations — for every expense identifier
referencing an existing Expense, `isLegalDocumentRequiredBeforePayment`
returns `true` iff `requiredLegalDocumentTypes` returns a non-empty set of
document types for that same expense. -/
theorem requirement_agreement (db : DB) (expenseId : Nat) (e : Expense)
    (he : findExpense db expenseId = some e) :
    (isLegalDocumentRequiredBeforePayment db expenseId = Except.ok true) ↔
    ∃ ts, requiredLegalDocumentTypes db expenseId = Except.ok ts ∧ ts ≠ [] := by
  cases hc : findCollective db e.CollectiveId with
  | none =>
    have hA : isLegalDocumentRequiredBeforePayment db expenseId =
        Except.error EvalError.NotFound := by
      simp only [isLegalDocumentRequiredBeforePayment, he, hc]
    have hB : requiredLegalDocumentTypes db expenseId =
        Except.error EvalError.NotFound := by
      simp only [requiredLegalDocumentTypes, he, hc]
    simp [hA, hB]
  | some c =>
    rw [isRequired_ok db expenseId e c he hc, requiredTypes_ok db expenseId e c he hc]
    simp only [Except.ok.injEq]
    rw [decision_true_iff db e c.HostCollectiveId]
    constructor
    · intro h; exact ⟨_, rfl, h⟩
    · rintro ⟨ts, hts, h⟩; rw [hts]; exact h

/-- Witness for C2 at a concrete input: expense 1 of `dbBatch` exists, and
the two operations agree on it. -/
theorem requirement_agreement_witness :
    findExpense dbBatch 1 = some ⟨1, 59000, ExpenseType.INVOICE, 50, 10, 2024⟩ ∧
    ((isLegalDocumentRequiredBeforePayment dbBatch 1 = Except.ok true) ↔
      ∃ ts, requiredLegalDocumentTypes dbBatch 1 = Except.ok ts ∧ ts ≠ []) :=
  ⟨rfl, requirement_agreement dbBatch 1 _ rfl⟩

theorem isRequired_true_of (db : DB) (expenseId : Nat) (e : Expense)
    (c : Collective)
    (he : findExpense db expenseId = some e)
    (hc : findCollective db e.CollectiveId = some c)
    (hreq : DocumentType.US_TAX_FORM ∈ hostRequiredDocTypes db c.HostCollectiveId)
    (hdoc : hasReceivedLegalDocument db e.FromCollectiveId e.incurredYear
      DocumentType.US_TAX_FORM = false)
    (htype : e.etype ≠ ExpenseType.RECEIPT)
    (hagg : US_TAX_FORM_THRESHOLD ≤
      aggregateTotal db c.HostCollectiveId e.FromCollectiveId e.incurredYear) :
    isLegalDocumentRequiredBeforePayment db expenseId = Except.ok true := by
  rw [isRequired_ok db expenseId e c he hc]
  have h1 : ¬ ((hostRequiredDocTypes db c.HostCollectiveId).isEmpty = true) := by
    simp only [List.isEmpty_iff]
    exact List.ne_nil_of_mem hreq
  have h2 : ¬ ((e.etype == ExpenseType.RECEIPT) = true) := by
    simp [htype]
  have h3 : ¬ (aggregateTotal db c.HostCollectiveId e.FromCollectiveId
      e.incurredYear < US_TAX_FORM_THRESHOLD) := Nat.not_lt.mpr hagg
  rw [if_neg h1, if_neg h2, if_neg h3]
  simp only [Except.ok.injEq, List.any_eq_true]
  exact ⟨DocumentType.US_TAX_FORM, hreq, by simp [hdoc]⟩

/-- Host 100 requires US_TAX_FORM; submitter 50 has a RECEIPT expense (id 1)
and an INVOICE expense (id 2) of exactly the threshold in the same year. -/
def dbReceiptBoundary : DB :=
  { collectives := [⟨10, 100⟩]
  , expenses :=
      [ ⟨1, 50, ExpenseType.RECEIPT, 50, 10, 2024⟩
      , ⟨2, 60000, ExpenseType.INVOICE, 50, 10, 2024⟩ ]
  , requiredDocuments := [⟨100, DocumentType.US_TAX_FORM⟩]
  , legalDocuments := [] }

/-- Counterexample to C3 as stated: expense 1 of `dbReceiptBoundary` is under
a Host requiring US_TAX_FORM, its submitter has no received LegalDocument and
a fiscal-year aggregate of non-RECEIPT expenses equal to the threshold, yet
the evaluator returns `false` because expense 1 itself is a RECEIPT. -/
theorem threshold_boundary_counterexample :
    DocumentType.US_TAX_FORM ∈ hostRequiredDocTypes dbReceiptBoundary 100 ∧
    hasReceivedLegalDocument dbReceiptBoundary 50 2024
      DocumentType.US_TAX_FORM = false ∧
    US_TAX_FORM_THRESHOLD ≤ aggregateTotal dbReceiptBoundary 100 50 2024 ∧
    findExpense dbReceiptBoundary 1 =
      some ⟨1, 50, ExpenseType.RECEIPT, 50, 10, 2024⟩ ∧
    isLegalDocumentRequiredBeforePayment dbReceiptBoundary 1 =
      Except.ok false := by
  refine ⟨?_, rfl, ?_, rfl, rfl⟩ <;> decide

/-- C3 (amended): threshold boundary for non-RECEIPT expenses — for every
non-RECEIPT Expense under a Host requiring US_TAX_FORM, with no received
LegalDocument for the submitter and fiscal year, an aggregate of exactly
threshold - 1 cent gives `false` and an aggregate of the threshold or more
gives `true`. -/
theorem threshold_boundary (db : DB) (expenseId : Nat) (e : Expense)
    (c : Collective)
    (he : findExpense db expenseId = some e)
    (hc : findCollective db e.CollectiveId = some c)
    (hreq : DocumentType.US_TAX_FORM ∈ hostRequiredDocTypes db c.HostCollectiveId)
    (hdoc : hasReceivedLegalDocument db e.FromCollectiveId e.incurredYear
      DocumentType.US_TAX_FORM = false)
    (htype : e.etype ≠ ExpenseType.RECEIPT) :
    (aggregateTotal db c.HostCollectiveId e.FromCollectiveId e.incurredYear =
        US_TAX_FORM_THRESHOLD - 1 →
      isLegalDocumentRequiredBeforePayment db expenseId = Except.ok false) ∧
    (US_TAX_FORM_THRESHOLD ≤
        aggregateTotal db c.HostCollectiveId e.FromCollectiveId e.incurredYear →
      isLegalDocumentRequiredBeforePayment db expenseId = Except.ok true) := by
  constructor
  · intro hagg
    rw [isRequired_ok db expenseId e c he hc]
    have hlt : aggregateTotal db c.HostCollectiveId e.FromCollectiveId
        e.incurredYear < US_TAX_FORM_THRESHOLD := by
      rw [hagg]; decide
    split_ifs <;> rfl
  · exact isRequired_true_of db expenseId e c he hc hreq hdoc htype

/-- Host 100 requires US_TAX_FORM; submitter 50 has a single INVOICE expense
of threshold - 1 cents. -/
def dbUnder : DB :=
  { collectives := [⟨10, 100⟩]
  , expenses := [⟨1, 59999, ExpenseType.INVOICE, 50, 10, 2024⟩]
  , requiredDocuments := [⟨100, DocumentType.US_TAX_FORM⟩]
  , legalDocuments := [] }

/-- Host 100 requires US_TAX_FORM; submitter 50 has a single INVOICE expense
of exactly the threshold. -/
def dbOver : DB :=
  { collectives := [⟨10, 100⟩]
  , expenses := [⟨1, 60000, ExpenseType.INVOICE, 50, 10, 2024⟩]
  , requiredDocuments := [⟨100, DocumentType.US_TAX_FORM⟩]
  , legalDocuments := [] }

/-- Witness for the amended C3 at concrete inputs: threshold - 1 evaluates
to `false`, exactly the threshold evaluates to `true`. -/
theorem threshold_boundary_witness :
    isLegalDocumentRequiredBeforePayment dbUnder 1 = Except.ok false ∧
    isLegalDocumentRequiredBeforePayment dbOver 1 = Except.ok true :=
  ⟨(threshold_boundary dbUnder 1 ⟨1, 59999, ExpenseType.INVOICE, 50, 10, 2024⟩
      ⟨10, 100⟩ rfl rfl (by decide) rfl (by decide)).1 (by decide),
   (threshold_boundary dbOver 1 ⟨1, 60000, ExpenseType.INVOICE, 50, 10, 2024⟩
      ⟨10, 100⟩ rfl rfl (by decide) rfl (by decide)).2 (by decide)⟩

/-- Host 100 requires US_TAX_FORM; submitter 50 has two INVOICE expenses of
threshold - 100 and 200 cents in the same fiscal year (summing above the
threshold, neither alone above it). -/
def dbTwoInvoices : DB :=
  { collectives := [⟨10, 100⟩]
  , expenses :=
      [ ⟨1, 59900, ExpenseType.INVOICE, 50, 10, 2024⟩
      , ⟨2, 200, ExpenseType.INVOICE, 50, 10, 2024⟩ ]
  , requiredDocuments := [⟨100, DocumentType.US_TAX_FORM⟩]
  , legalDocuments := [] }

/-- C4: aggregate definition — the aggregate compared against the threshold
sums the non-RECEIPT expenses of the same submitter under the same Host in
the same fiscal year and includes the expense under evaluation itself (its
amount is a lower bound of its own group's aggregate); hence the two INVOICE
expenses of threshold - 100 and 200 cents of `dbTwoInvoices` both evaluate
to `true` even though neither alone exceeds the threshold. -/
theorem aggregate_includes_self :
    (∀ (db : DB) (hostId : Nat) (e : Expense), e ∈ db.expenses →
      e.etype ≠ ExpenseType.RECEIPT →
      isUnderHost db e.CollectiveId hostId = true →
      e.amount ≤ aggregateTotal db hostId e.FromCollectiveId e.incurredYear) ∧
    (isLegalDocumentRequiredBeforePayment dbTwoInvoices 1 = Except.ok true ∧
     isLegalDocumentRequiredBeforePayment dbTwoInvoices 2 = Except.ok true) := by
  refine ⟨?_, rfl, rfl⟩
  intro db hostId e hmem htype hunder
  have hp : matchesAggregate db hostId e.FromCollectiveId e.incurredYear e = true := by
    simp [matchesAggregate, countsTowardThreshold, htype, hunder]
  have hmem' : e ∈ db.expenses.filter
      (matchesAggregate db hostId e.FromCollectiveId e.incurredYear) :=
    List.mem_filter.mpr ⟨hmem, hp⟩
  have hmem'' : e.amount ∈ (db.expenses.filter
      (matchesAggregate db hostId e.FromCollectiveId e.incurredYear)).map
        (fun x => x.amount) :=
    List.mem_map_of_mem _ hmem'
  exact List.single_le_sum (fun x _ => Nat.zero_le x) _ hmem''

/-- Witness for C4's general part at a concrete input: expense 1 of
`dbTwoInvoices` contributes its own amount to its group's aggregate. -/
theorem aggregate_includes_self_witness :
    (⟨1, 59900, ExpenseType.INVOICE, 50, 10, 2024⟩ : Expense) ∈
      dbTwoInvoices.expenses ∧
    59900 ≤ aggregateTotal dbTwoInvoices 100 50 2024 :=
  ⟨by decide, aggregate_includes_self.1 dbTwoInvoices 100
    ⟨1, 59900, ExpenseType.INVOICE, 50, 10, 2024⟩ (by decide) (by decide)
    (by decide)⟩

/-- C5: year isolation — a RECEIVED LegalDocument satisfies the requirement
only if its year equals the expense's fiscal year: when every RECEIVED
US_TAX_FORM document of the submitter has a different year than the expense,
an above-threshold expense still evaluates to `true`; and an expense of a
different fiscal year contributes nothing to an aggregate. -/
theorem year_isolation :
    (∀ (db : DB) (expenseId : Nat) (e : Expense) (c : Collective),
      findExpense db expenseId = some e →
      findCollective db e.CollectiveId = some c →
      DocumentType.US_TAX_FORM ∈ hostRequiredDocTypes db c.HostCollectiveId →
      e.etype ≠ ExpenseType.RECEIPT →
      US_TAX_FORM_THRESHOLD ≤
        aggregateTotal db c.HostCollectiveId e.FromCollectiveId e.incurredYear →
      (∀ d ∈ db.legalDocuments, d.CollectiveId = e.FromCollectiveId →
        d.documentType = DocumentType.US_TAX_FORM →
        d.requestStatus = RequestStatus.RECEIVED → d.year ≠ e.incurredYear) →
      isLegalDocumentRequiredBeforePayment db expenseId = Except.ok true) ∧
    (∀ (db : DB) (hostId fromId year : Nat) (x : Expense),
      x.incurredYear ≠ year →
      aggregateTotal { db with expenses := x :: db.expenses } hostId fromId year =
        aggregateTotal db hostId fromId year) := by
  constructor
  · intro db expenseId e c he hc hreq htype hagg hdocs
    have hdoc : hasReceivedLegalDocument db e.FromCollectiveId e.incurredYear
        DocumentType.US_TAX_FORM = false := by
      rw [hasReceivedLegalDocument, List.any_eq_false]
      intro d hd hcond
      rw [Bool.and_eq_true] at hcond
      obtain ⟨h12, hst⟩ := hcond
      rw [Bool.and_eq_true] at h12
      obtain ⟨h1, hdt⟩ := h12
      rw [Bool.and_eq_true] at h1
      obtain ⟨hcid, hyear⟩ := h1
      exact absurd (by simpa using hyear)
        (hdocs d hd (by simpa using hcid) (eq_usTaxForm _)
          (by simpa using hst))
    exact isRequired_true_of db expenseId e c he hc hreq hdoc htype hagg
  · intro db hostId fromId year x hx
    have hpx : matchesAggregate { db with expenses := x :: db.expenses }
        hostId fromId year x = false := by
      simp [matchesAggregate, hx]
    simp only [aggregateTotal]
    rw [List.filter_cons_of_neg (by simp [hpx])]
    rfl

/-- Submitter 50's expense 1 was incurred in 2023 above the threshold; a
US_TAX_FORM was RECEIVED only for year 2024. -/
def dbLastYear : DB :=
  { collectives := [⟨10, 100⟩]
  , expenses := [⟨1, 61000, ExpenseType.INVOICE, 50, 10, 2023⟩]
  , requiredDocuments := [⟨100, DocumentType.US_TAX_FORM⟩]
  , legalDocuments :=
      [⟨2024, DocumentType.US_TAX_FORM, RequestStatus.RECEIVED, 50⟩] }

/-- Witness for C5 at a concrete input: the 2023 expense still evaluates to
`true` although a document was RECEIVED for 2024. -/
theorem year_isolation_witness :
    isLegalDocumentRequiredBeforePayment dbLastYear 1 = Except.ok true :=
  year_isolation.1 dbLastYear 1 ⟨1, 61000, ExpenseType.INVOICE, 50, 10, 2023⟩
    ⟨10, 100⟩ rfl rfl (by decide) (by decide) (by decide) (by decide)

/-- C6: satisfaction — once a RECEIVED LegalDocument exists for the
submitter, fiscal year and document type, every expense by that submitter in
that fiscal year evaluates to `false`. -/
theorem satisfaction_received_document (db : DB) (expenseId : Nat)
    (e : Expense) (c : Collective)
    (he : findExpense db expenseId = some e)
    (hc : findCollective db e.CollectiveId = some c)
    (hdoc : hasReceivedLegalDocument db e.FromCollectiveId e.incurredYear
      DocumentType.US_TAX_FORM = true) :
    isLegalDocumentRequiredBeforePayment db expenseId = Except.ok false := by
  rw [isRequired_ok db expenseId e c he hc]
  split_ifs <;> try rfl
  simp only [Except.ok.injEq]
  rw [List.any_eq_false]
  intro dt hdt
  cases dt
  simp [hdoc]

/-- Host 100 requires US_TAX_FORM; submitter 50 has an above-threshold
expense and a US_TAX_FORM RECEIVED for the same fiscal year. -/
def dbReceived : DB :=
  { collectives := [⟨10, 100⟩]
  , expenses := [⟨1, 70000, ExpenseType.INVOICE, 50, 10, 2024⟩]
  , requiredDocuments := [⟨100, DocumentType.US_TAX_FORM⟩]
  , legalDocuments :=
      [⟨2024, DocumentType.US_TAX_FORM, RequestStatus.RECEIVED, 50⟩] }

/-- Witness for C6 at a concrete input: with the document RECEIVED for the
same year, the above-threshold expense evaluates to `false`. -/
theorem satisfaction_received_document_witness :
    isLegalDocumentRequiredBeforePayment dbReceived 1 = Except.ok false :=
  satisfaction_received_document dbReceived 1
    ⟨1, 70000, ExpenseType.INVOICE, 50, 10, 2024⟩ ⟨10, 100⟩ rfl rfl (by decide)

/-- C7: expense-type filter — a RECEIPT expense always evaluates to `false`
with no outstanding document types, regardless of amount or Host
configuration; a RECEIPT expense contributes nothing to any aggregate; and
UNCLASSIFIED and FUNDING_REQUEST are treated identically to INVOICE by both
the aggregate filter and the outstanding-document check. -/
theorem receipt_excluded_and_types_equivalent :
    (∀ (db : DB) (expenseId : Nat) (e : Expense) (c : Collective),
      findExpense db expenseId = some e →
      findCollective db e.CollectiveId = some c →
      e.etype = ExpenseType.RECEIPT →
      isLegalDocumentRequiredBeforePayment db expenseId = Except.ok false ∧
      requiredLegalDocumentTypes db expenseId = Except.ok []) ∧
    (∀ (db : DB) (hostId fromId year : Nat) (x : Expense),
      x.etype = ExpenseType.RECEIPT →
      aggregateTotal { db with expenses := x :: db.expenses } hostId fromId
          year =
        aggregateTotal db hostId fromId year) ∧
    (∀ (t : ExpenseType),
      t = ExpenseType.UNCLASSIFIED ∨ t = ExpenseType.FUNDING_REQUEST →
      ∀ (db : DB) (hostId fromId year : Nat) (e : Expense) (dt : DocumentType),
        matchesAggregate db hostId fromId year { e with etype := t } =
          matchesAggregate db hostId fromId year
            { e with etype := ExpenseType.INVOICE } ∧
        documentOutstanding db { e with etype := t } hostId dt =
          documentOutstanding db { e with etype := ExpenseType.INVOICE }
            hostId dt) := by
  refine ⟨?_, ?_, ?_⟩
  · intro db expenseId e c he hc ht
    have hf : ∀ dt, documentOutstanding db e c.HostCollectiveId dt = false :=
      fun dt => by
        simp [documentOutstanding, documentOutstandingAgg,
          countsTowardThreshold, ht]
    have hnil : (hostRequiredDocTypes db c.HostCollectiveId).filter
        (documentOutstanding db e c.HostCollectiveId) = [] :=
      List.filter_eq_nil_iff.mpr (fun a _ => by simp [hf])
    constructor
    · rw [isRequired_ok db expenseId e c he hc]
      have h2 : (e.etype == ExpenseType.RECEIPT) = true := by simp [ht]
      split_ifs <;> rfl
    · rw [requiredTypes_ok db expenseId e c he hc, hnil]
  · intro db hostId fromId year x hx
    have hpx : matchesAggregate { db with expenses := x :: db.expenses }
        hostId fromId year x = false := by
      simp [matchesAggregate, countsTowardThreshold, hx]
    simp only [aggregateTotal]
    rw [List.filter_cons_of_neg (by simp [hpx])]
    rfl
  · rintro t (rfl | rfl) db hostId fromId year e dt <;> exact ⟨rfl, rfl⟩

/-- Witness for C7's RECEIPT part at a concrete input: the RECEIPT expense 1
of `dbReceiptBoundary` evaluates to `false` with no outstanding types. -/
theorem receipt_excluded_witness :
    isLegalDocumentRequiredBeforePayment dbReceiptBoundary 1 =
      Except.ok false ∧
    requiredLegalDocumentTypes dbReceiptBoundary 1 = Except.ok [] :=
  receipt_excluded_and_types_equivalent.1 dbReceiptBoundary 1
    ⟨1, 50, ExpenseType.RECEIPT, 50, 10, 2024⟩ ⟨10, 100⟩ rfl rfl rfl

/-- C8: absent configuration is a normal negative result — when the Host has
zero RequiredLegalDocument rows, Operation A returns `false` and Operation B
the empty set, without error, regardless of the expense's amount. -/
theorem no_configuration_is_false (db : DB) (expenseId : Nat) (e : Expense)
    (c : Collective)
    (he : findExpense db expenseId = some e)
    (hc : findCollective db e.CollectiveId = some c)
    (hcfg : db.requiredDocuments.filter
      (fun r => r.HostCollectiveId == c.HostCollectiveId) = []) :
    isLegalDocumentRequiredBeforePayment db expenseId = Except.ok false ∧
    requiredLegalDocumentTypes db expenseId = Except.ok [] := by
  have hrt : hostRequiredDocTypes db c.HostCollectiveId = [] := by
    rw [hostRequiredDocTypes, hcfg]
    rfl
  constructor
  · rw [isRequired_ok db expenseId e c he hc]
    simp [hrt]
  · rw [requiredTypes_ok db expenseId e c he hc, hrt]
    rfl

/-- Host 200 has no RequiredLegalDocument rows; expense 1 has a very large
amount. -/
def dbNoConfig : DB :=
  { collectives := [⟨20, 200⟩]
  , expenses := [⟨1, 100000000, ExpenseType.INVOICE, 50, 20, 2024⟩]
  , requiredDocuments := []
  , legalDocuments := [] }

/-- Witness for C8 at a concrete input: under an unconfigured Host even a
very large expense yields `false` and the empty set. -/
theorem no_configuration_is_false_witness :
    isLegalDocumentRequiredBeforePayment dbNoConfig 1 = Except.ok false ∧
    requiredLegalDocumentTypes dbNoConfig 1 = Except.ok [] :=
  no_configuration_is_false dbNoConfig 1
    ⟨1, 100000000, ExpenseType.INVOICE, 50, 20, 2024⟩ ⟨20, 200⟩ rfl rfl rfl

/-- C9: per-key failure without masking — an identifier of a batch that
references a nonexistent Expense resolves to a NotFound error for that key
alone, while every identifier of the batch keeps exactly its own load-alone
result (a failure is never converted into a false "not required" result). -/
theorem batch_per_key_failure (db : DB) (ids : List Nat) (i badId : Nat)
    (hi : ids[i]? = some badId) (hbad : findExpense db badId = none) :
    (loadMany db ids)[i]? = some (Except.error EvalError.NotFound) ∧
    ∀ (j otherId : Nat), ids[j]? = some otherId →
      (loadMany db ids)[j]? = some (requiredLegalDocumentTypes db otherId) := by
  have hmap := loadMany_eq_map db ids
  constructor
  · rw [hmap, List.getElem?_map, hi]
    simp [requiredLegalDocumentTypes, hbad]
  · intro j otherId hj
    rw [hmap, List.getElem?_map, hj]
    rfl

/-- Witness for C9 at a concrete input: in the batch [1, 999] over
`dbBatch`, identifier 999 references no Expense and resolves to NotFound,
while identifier 1 keeps its own result. -/
theorem batch_per_key_failure_witness :
    (loadMany dbBatch [1, 999])[1]? =
      some (Except.error EvalError.NotFound) ∧
    (loadMany dbBatch [1, 999])[0]? =
      some (requiredLegalDocumentTypes dbBatch 1) := by
  have h := batch_per_key_failure dbBatch [1, 999] 1 999 rfl rfl
  exact ⟨h.1, h.2 0 1 rfl⟩

/-- C10: feature-status fallback asymmetry — for a collective passing the
allowed-for-type and has-feature checks, the resolver returns ACTIVE when
the feature's usage count is non-zero; on a zero count it returns AVAILABLE
for UPDATES, CONVERSATIONS and RECURRING_CONTRIBUTIONS but DISABLED for
TRANSFERWISE; every feature outside these four yields ACTIVE independently of
any usage data; a null collective always yields UNSUPPORTED. -/
theorem feature_status_cases
    (allowed : CollectiveType → Feature → Bool → Bool)
    (hasF : FCollective → Feature → Bool)
    (fdb : FeatureDB) (c : FCollective) :
    (allowed c.ctype Feature.UPDATES c.isHostAccount = true →
      hasF c Feature.UPDATES = true →
      ((fdb.publishedUpdatesCount c.id ≠ 0 →
        getFeatureStatusResolver allowed hasF fdb Feature.UPDATES (some c) =
          FeatureStatus.ACTIVE) ∧
       (fdb.publishedUpdatesCount c.id = 0 →
        getFeatureStatusResolver allowed hasF fdb Feature.UPDATES (some c) =
          FeatureStatus.AVAILABLE))) ∧
    (allowed c.ctype Feature.CONVERSATIONS c.isHostAccount = true →
      hasF c Feature.CONVERSATIONS = true →
      ((fdb.conversationsCount c.id ≠ 0 →
        getFeatureStatusResolver allowed hasF fdb Feature.CONVERSATIONS
          (some c) = FeatureStatus.ACTIVE) ∧
       (fdb.conversationsCount c.id = 0 →
        getFeatureStatusResolver allowed hasF fdb Feature.CONVERSATIONS
          (some c) = FeatureStatus.AVAILABLE))) ∧
    (allowed c.ctype Feature.RECURRING_CONTRIBUTIONS c.isHostAccount = true →
      hasF c Feature.RECURRING_CONTRIBUTIONS = true →
      ((fdb.activeRecurringContributionsCount c.id ≠ 0 →
        getFeatureStatusResolver allowed hasF fdb
          Feature.RECURRING_CONTRIBUTIONS (some c) = FeatureStatus.ACTIVE) ∧
       (fdb.activeRecurringContributionsCount c.id = 0 →
        getFeatureStatusResolver allowed hasF fdb
          Feature.RECURRING_CONTRIBUTIONS (some c) =
          FeatureStatus.AVAILABLE))) ∧
    (allowed c.ctype Feature.TRANSFERWISE c.isHostAccount = true →
      hasF c Feature.TRANSFERWISE = true →
      ((fdb.transferwiseAccountsCount c.id ≠ 0 →
        getFeatureStatusResolver allowed hasF fdb Feature.TRANSFERWISE
          (some c) = FeatureStatus.ACTIVE) ∧
       (fdb.transferwiseAccountsCount c.id = 0 →
        getFeatureStatusResolver allowed hasF fdb Feature.TRANSFERWISE
          (some c) = FeatureStatus.DISABLED))) ∧
    (∀ f, f ∉ [Feature.UPDATES, Feature.CONVERSATIONS,
        Feature.RECURRING_CONTRIBUTIONS, Feature.TRANSFERWISE] →
      allowed c.ctype f c.isHostAccount = true → hasF c f = true →
      ∀ fdb2 : FeatureDB,
        getFeatureStatusResolver allowed hasF fdb2 f (some c) =
          FeatureStatus.ACTIVE) ∧
    (∀ f, getFeatureStatusResolver allowed hasF fdb f none =
      FeatureStatus.UNSUPPORTED) := by
  refine ⟨?_, ?_, ?_, ?_, ?_, fun f => rfl⟩
  · intro ha hh
    exact ⟨fun hcount => by
        simp [getFeatureStatusResolver, ha, hh, checkIsActive, hcount],
      fun hcount => by
        simp [getFeatureStatusResolver, ha, hh, checkIsActive, hcount]⟩
  · intro ha hh
    exact ⟨fun hcount => by
        simp [getFeatureStatusResolver, ha, hh, checkIsActive, hcount],
      fun hcount => by
        simp [getFeatureStatusResolver, ha, hh, checkIsActive, hcount]⟩
  · intro ha hh
    exact ⟨fun hcount => by
        simp [getFeatureStatusResolver, ha, hh, checkIsActive, hcount],
      fun hcount => by
        simp [getFeatureStatusResolver, ha, hh, checkIsActive, hcount]⟩
  · intro ha hh
    exact ⟨fun hcount => by
        simp [getFeatureStatusResolver, ha, hh, checkIsActive, hcount],
      fun hcount => by
        simp [getFeatureStatusResolver, ha, hh, checkIsActive, hcount]⟩
  · intro f hf ha hh fdb2
    cases f
    · simp at hf
    · simp at hf
    · simp at hf
    · simp at hf
    · simp [getFeatureStatusResolver, ha, hh]
    · simp [getFeatureStatusResolver, ha, hh]

/-- Usage data for the feature-status witness: one published update, no
conversations, three active recurring contributions, no transferwise
accounts. -/
def fdbWitness : FeatureDB :=
  { publishedUpdatesCount := fun _ => 1
  , conversationsCount := fun _ => 0
  , activeRecurringContributionsCount := fun _ => 3
  , transferwiseAccountsCount := fun _ => 0 }

/-- Witness for C10 at concrete inputs: non-zero UPDATES usage is ACTIVE,
zero CONVERSATIONS usage is AVAILABLE, zero TRANSFERWISE usage is DISABLED,
a default-branch feature is ACTIVE, and a null collective is UNSUPPORTED. -/
theorem feature_status_cases_witness :
    getFeatureStatusResolver (fun _ _ _ => true) (fun _ _ => true) fdbWitness
      Feature.UPDATES (some ⟨7, CollectiveType.COLLECTIVE, false⟩) =
      FeatureStatus.ACTIVE ∧
    getFeatureStatusResolver (fun _ _ _ => true) (fun _ _ => true) fdbWitness
      Feature.CONVERSATIONS (some ⟨7, CollectiveType.COLLECTIVE, false⟩) =
      FeatureStatus.AVAILABLE ∧
    getFeatureStatusResolver (fun _ _ _ => true) (fun _ _ => true) fdbWitness
      Feature.TRANSFERWISE (some ⟨7, CollectiveType.COLLECTIVE, false⟩) =
      FeatureStatus.DISABLED ∧
    getFeatureStatusResolver (fun _ _ _ => true) (fun _ _ => true) fdbWitness
      Feature.CONTACT_FORM (some ⟨7, CollectiveType.COLLECTIVE, false⟩) =
      FeatureStatus.ACTIVE ∧
    getFeatureStatusResolver (fun _ _ _ => true) (fun _ _ => true) fdbWitness
      Feature.UPDATES none = FeatureStatus.UNSUPPORTED := by
  have h := feature_status_cases (fun _ _ _ => true) (fun _ _ => true)
    fdbWitness ⟨7, CollectiveType.COLLECTIVE, false⟩
  exact ⟨(h.1 rfl rfl).1 (by decide), (h.2.1 rfl rfl).2 rfl,
    (h.2.2.2.1 rfl rfl).2 rfl,
    h.2.2.2.2.1 Feature.CONTACT_FORM (by decide) rfl rfl fdbWitness,
    h.2.2.2.2.2 Feature.UPDATES⟩

end OC
